import Mathlib

/-
Verification of the Series Complete for Plex Home Assistant integration.

The development shallowly embeds the three source modules:
  * custom_components/series_complete/coordinator.py  (the polling coordinator)
  * custom_components/series_complete/config_flow.py  (auto-detection probing)
  * custom_components/series_complete/sensor.py       (the five sensor entities)

Python dictionaries holding the two consumed record fields become a structure
of optional integers (`dict.get(key, 0)` becomes `Option.getD 0`); the float
arithmetic of the completion percentage is modelled over ℚ, with Python's
`round(x, 1)` (round half to even) modelled exactly on ℚ.
-/

namespace SeriesComplete

/-- A series record as consumed by the coordinator: only the two fields
`totalEpisodes` and `episode_count` are ever read, each with `dict.get(_, 0)`,
so an absent key is `none` and defaults to `0`. -/
structure SeriesRecord where
  totalEpisodes : Option Int
  episode_count : Option Int
deriving DecidableEq, Repr

/-- The snapshot dictionary built by `_async_update_data` in coordinator.py:
keys "total", "complete", "incomplete", "critical", "completion_pct",
"series". -/
structure Snapshot where
  total : Nat
  complete : Nat
  incomplete : Nat
  critical : Nat
  completion_pct : ℚ
  series : List SeriesRecord
deriving DecidableEq, Repr

/-- The initial `data` dictionary of `_async_update_data`: all counters zero,
`completion_pct = 0.0`, `series = []`. -/
def emptyData : Snapshot :=
  { total := 0, complete := 0, incomplete := 0, critical := 0
    completion_pct := 0, series := [] }

/-- Round half to even on ℤ-valued position, the rounding mode of Python's
built-in `round`. -/
def rhe (q : ℚ) : ℤ :=
  let f := ⌊q⌋
  let r := q - f
  if r < 1/2 then f
  else if 1/2 < r then f + 1
  else if f % 2 = 0 then f else f + 1

/-- Python's `round(x, 1)`: round to one decimal digit, ties to even. -/
def pyRound1 (q : ℚ) : ℚ := (rhe (q * 10) : ℚ) / 10

/-- One iteration of the classification loop of `_async_update_data`:
reads `totalEpisodes` and `episode_count` with default 0, and under the guard
`total_eps and total_eps > 0` classifies by `pct = owned/total*100`:
`pct >= 100` → complete, `pct < 50` → critical, otherwise incomplete. -/
def classifyStep (d : Snapshot) (s : SeriesRecord) : Snapshot :=
  let total_eps : Int := s.totalEpisodes.getD 0
  let owned_eps : Int := s.episode_count.getD 0
  if total_eps ≠ 0 ∧ 0 < total_eps then
    let pct : ℚ := ((owned_eps : ℚ) / (total_eps : ℚ)) * 100
    if 100 ≤ pct then { d with complete := d.complete + 1 }
    else if pct < 50 then { d with critical := d.critical + 1 }
    else { d with incomplete := d.incomplete + 1 }
  else d

/-- The 200-status body of `_async_update_data`: store the parsed list and its
length, run the classification loop, then set
`completion_pct = round(complete/analyzed*100, 1)` when `analyzed > 0`. -/
def processSeries (series_list : List SeriesRecord) : Snapshot :=
  let d0 : Snapshot := { emptyData with series := series_list, total := series_list.length }
  let d := series_list.foldl classifyStep d0
  let analyzed := d.complete + d.incomplete + d.critical
  if 0 < analyzed then
    { d with completion_pct := pyRound1 (((d.complete : ℚ) / (analyzed : ℚ)) * 100) }
  else d

/-- The parsed JSON body of the response, as far as the coordinator looks at
it: `isinstance(result, list)` either holds (a list of records) or not. -/
inductive JsonValue where
  | list (records : List SeriesRecord)
  | other
deriving DecidableEq, Repr

/-- Outcome of the POST to `/api/get-series`: an HTTP response with a status
and parsed JSON body, or an `aiohttp.ClientError`, or a `TimeoutError`. -/
inductive Response where
  | ok (status : Nat) (body : JsonValue)
  | clientError
  | timeoutError
deriving DecidableEq, Repr

/-- The two `UpdateFailed` raises of `_async_update_data`. -/
inductive UpdateError where
  | updateFailedClient
  | updateFailedTimeout
deriving DecidableEq, Repr

/-- The whole of `SeriesCompleteCoordinator._async_update_data` given the
outcome of the single POST request: `ClientError` and `TimeoutError` raise
`UpdateFailed`; a response is processed only when its status is 200, and a
non-list JSON body is replaced by `[]`; any other status falls through and
returns the initial all-zero `data`. -/
def async_update_data (resp : Response) : Except UpdateError Snapshot :=
  match resp with
  | .clientError => .error .updateFailedClient
  | .timeoutError => .error .updateFailedTimeout
  | .ok status body =>
    if status = 200 then
      let series_list := match body with
        | .list records => records
        | .other => []
      .ok (processSeries series_list)
    else
      .ok emptyData

/-- Modelled from the spec: the host framework's `DataUpdateCoordinator`
(homeassistant.helpers.update_coordinator, not part of this repository) keeps
the previously cached snapshot when `_async_update_data` raises `UpdateFailed`
(it marks entities unavailable and retries next interval) and replaces the
snapshot with the returned value on success. `coordinator.data` starts as
`none` before the first refresh. -/
def coordinatorTick (state : Option Snapshot) (resp : Response) : Option Snapshot :=
  match async_update_data resp with
  | .ok d => some d
  | .error _ => state

/-! Config flow: the auto-detection of `_detect_app` in config_flow.py. -/

/-- The fixed add-on port of config_flow.py. -/
def ADDON_PORT : Nat := 3000

/-- The add-on slug of config_flow.py. -/
def ADDON_SLUG : String := "series-complete-plex"

/-- The hash-based hostname of config_flow.py. -/
def ADDON_HASH_PREFIX : String := "e81ba94f"

/-- The fixed hostname list probed by `_detect_app`, in priority order. -/
def FALLBACK_HOSTNAMES : List String :=
  [ADDON_HASH_PREFIX ++ "-" ++ ADDON_SLUG, "local-" ++ ADDON_SLUG, ADDON_SLUG]

/-- The per-hostname probe timeout (seconds) of `_detect_app`:
`aiohttp.ClientTimeout(total=3)`. -/
def PROBE_TIMEOUT_TOTAL : Nat := 3

/-- Outcome of one GET probe of `/api/test-connection` against a hostname
within the 3-second timeout: a status code, or a connection error, or a
timeout. -/
inductive ProbeOutcome where
  | status (code : Nat)
  | connError
  | timeout
deriving DecidableEq, Repr

/-- The loop body of `_detect_app` over the remaining hostnames: return
`(hostname, ADDON_PORT)` on the first status-200 answer, `continue` on any
other status, connection error or timeout. -/
def detectLoop (probe : String → ProbeOutcome) : List String → Option (String × Nat)
  | [] => none
  | h :: rest =>
    match probe h with
    | .status code =>
      if code = 200 then some (h, ADDON_PORT) else detectLoop probe rest
    | .connError => detectLoop probe rest
    | .timeout => detectLoop probe rest

/-- `SeriesCompleteConfigFlow._detect_app`, given the behaviour of the network
as a function from hostname to probe outcome. -/
def detect_app (probe : String → ProbeOutcome) : Option (String × Nat) :=
  detectLoop probe FALLBACK_HOSTNAMES

/-! Sensor platform: the five `value_fn` projections and `native_value`. -/

/-- A sensor's native value: the count sensors yield integers, the completion
sensor a float (here ℚ). -/
inductive SensorValue where
  | count (v : Nat)
  | percent (v : ℚ)
deriving DecidableEq, Repr

/-- `value_fn` of the "total" sensor: `data.get("total", 0)`; every snapshot
dictionary built by the coordinator carries the key. -/
def totalValueFn (d : Snapshot) : SensorValue := .count d.total

/-- `value_fn` of the "complete" sensor: `data.get("complete", 0)`. -/
def completeValueFn (d : Snapshot) : SensorValue := .count d.complete

/-- `value_fn` of the "incomplete" sensor: `data.get("incomplete", 0)`. -/
def incompleteValueFn (d : Snapshot) : SensorValue := .count d.incomplete

/-- `value_fn` of the "critical" sensor: `data.get("critical", 0)`. -/
def criticalValueFn (d : Snapshot) : SensorValue := .count d.critical

/-- `value_fn` of the "completion" sensor: `data.get("completion_pct", 0.0)`. -/
def completionValueFn (d : Snapshot) : SensorValue := .percent d.completion_pct

/-- The `SENSORS` tuple of sensor.py: the five sensor descriptions, keyed as
in the source, each with its `value_fn`. -/
def SENSORS : List (String × (Snapshot → SensorValue)) :=
  [("total", totalValueFn), ("complete", completeValueFn),
   ("incomplete", incompleteValueFn), ("critical", criticalValueFn),
   ("completion", completionValueFn)]

/-- `SeriesCompleteSensor.native_value`: `None` while `coordinator.data` is
`None`, otherwise `value_fn(coordinator.data)`. -/
def native_value (value_fn : Snapshot → SensorValue) (data : Option Snapshot) :
    Option SensorValue :=
  match data with
  | none => none
  | some d => some (value_fn d)

/-! Derived predicates on records, used to state the classification claims. -/

/-- Whether a record carries a `totalEpisodes` key with a positive value; only
such records enter the classification. -/
def hasPositiveTotal (s : SeriesRecord) : Bool :=
  match s.totalEpisodes with
  | some t => decide (0 < t)
  | none => false

/-- The completion ratio `episode_count / totalEpisodes * 100` of a record,
with absent fields defaulting to 0. -/
def recPct (s : SeriesRecord) : ℚ :=
  (((s.episode_count.getD 0 : Int) : ℚ) / ((s.totalEpisodes.getD 0 : Int) : ℚ)) * 100

/-- A record classified into the complete bucket. -/
def isComplete (s : SeriesRecord) : Bool :=
  hasPositiveTotal s && decide (100 ≤ recPct s)

/-- A record classified into the critical bucket. -/
def isCritical (s : SeriesRecord) : Bool :=
  hasPositiveTotal s && !decide (100 ≤ recPct s) && decide (recPct s < 50)

/-- A record classified into the incomplete bucket. -/
def isIncomplete (s : SeriesRecord) : Bool :=
  hasPositiveTotal s && !decide (100 ≤ recPct s) && !decide (recPct s < 50)

/-! Checked-division variants: every `/` of the coordinator is replaced by a
division that fails on a zero denominator, so that totality of the checked
computation proves the absence of division by zero. -/

/-- Division that fails instead of dividing by zero. -/
def divCheck (a b : ℚ) : Option ℚ :=
  if b = 0 then none else some (a / b)

/-- `classifyStep` with its division checked. -/
def classifyStepChecked (d : Snapshot) (s : SeriesRecord) : Option Snapshot :=
  let total_eps : Int := s.totalEpisodes.getD 0
  let owned_eps : Int := s.episode_count.getD 0
  if total_eps ≠ 0 ∧ 0 < total_eps then
    match divCheck (owned_eps : ℚ) (total_eps : ℚ) with
    | none => none
    | some r =>
      let pct : ℚ := r * 100
      if 100 ≤ pct then some { d with complete := d.complete + 1 }
      else if pct < 50 then some { d with critical := d.critical + 1 }
      else some { d with incomplete := d.incomplete + 1 }
  else some d

/-- `processSeries` with both of its divisions checked. -/
def processSeriesChecked (series_list : List SeriesRecord) : Option Snapshot := do
  let d0 : Snapshot := { emptyData with series := series_list, total := series_list.length }
  let d ← series_list.foldlM classifyStepChecked d0
  let analyzed := d.complete + d.incomplete + d.critical
  if 0 < analyzed then
    let r ← divCheck (d.complete : ℚ) (analyzed : ℚ)
    pure { d with completion_pct := pyRound1 (r * 100) }
  else
    pure d

/-- `async_update_data` with every division checked. -/
def async_update_data_checked (resp : Response) : Option (Except UpdateError Snapshot) :=
  match resp with
  | .clientError => some (.error .updateFailedClient)
  | .timeoutError => some (.error .updateFailedTimeout)
  | .ok status body =>
    if status = 200 then
      let series_list := match body with
        | .list records => records
        | .other => []
      (processSeriesChecked series_list).map .ok
    else
      some (.ok emptyData)

/-- A sample non-zero cached snapshot, used to exhibit that a non-200 response
replaces the cache. -/
def priorSnapshot : Snapshot :=
  { total := 5, complete := 2, incomplete := 2, critical := 1,
    completion_pct := 40, series := [] }

lemma hasPositiveTotal_eq (s : SeriesRecord) :
    hasPositiveTotal s = decide (0 < (s.totalEpisodes.getD 0 : Int)) := by
  cases h : s.totalEpisodes <;> simp [hasPositiveTotal, h]

/-- One classification step, rephrased through the three bucket predicates. -/
lemma classifyStep_eq (d : Snapshot) (s : SeriesRecord) :
    classifyStep d s =
      if isComplete s then { d with complete := d.complete + 1 }
      else if isCritical s then { d with critical := d.critical + 1 }
      else if isIncomplete s then { d with incomplete := d.incomplete + 1 }
      else d := by
  have hrec : recPct s =
      (((s.episode_count.getD 0 : Int) : ℚ) / ((s.totalEpisodes.getD 0 : Int) : ℚ)) * 100 :=
    rfl
  simp only [classifyStep]
  rw [← hrec]
  by_cases ht : (0 : Int) < s.totalEpisodes.getD 0
  · have hpt : hasPositiveTotal s = true := by
      rw [hasPositiveTotal_eq]; simpa using ht
    rw [if_pos ⟨ht.ne', ht⟩]
    by_cases hc : (100 : ℚ) ≤ recPct s
    · have h1 : isComplete s = true := by simp [isComplete, hpt, hc]
      rw [if_pos hc]
      simp [h1]
    · have h1 : isComplete s = false := by simp [isComplete, hc]
      rw [if_neg hc]
      by_cases hk : recPct s < 50
      · have h2 : isCritical s = true := by simp [isCritical, hpt, hc, hk]
        rw [if_pos hk]
        simp [h1, h2]
      · have h2 : isCritical s = false := by simp [isCritical, hk]
        have h3 : isIncomplete s = true := by simp [isIncomplete, hpt, hc, hk]
        rw [if_neg hk]
        simp [h1, h2, h3]
  · have hpt : hasPositiveTotal s = false := by
      rw [hasPositiveTotal_eq]; simpa using ht
    have h1 : isComplete s = false := by simp [isComplete, hpt]
    have h2 : isCritical s = false := by simp [isCritical, hpt]
    have h3 : isIncomplete s = false := by simp [isIncomplete, hpt]
    rw [if_neg (fun h => ht h.2)]
    simp [h1, h2, h3]

/-- The three bucket predicates are mutually exclusive. -/
lemma buckets_exclusive (s : SeriesRecord) :
    (isCritical s = true → isComplete s = false) ∧
    (isIncomplete s = true → isComplete s = false ∧ isCritical s = false) := by
  cases hpt : hasPositiveTotal s <;>
    cases hq : decide ((100 : ℚ) ≤ recPct s) <;>
    cases hr : decide (recPct s < 50) <;>
      simp [isComplete, isCritical, isIncomplete, hpt, hq, hr]

lemma classifyStep_total (d : Snapshot) (s : SeriesRecord) :
    (classifyStep d s).total = d.total := by
  rw [classifyStep_eq]; split_ifs <;> rfl

lemma classifyStep_series (d : Snapshot) (s : SeriesRecord) :
    (classifyStep d s).series = d.series := by
  rw [classifyStep_eq]; split_ifs <;> rfl

lemma classifyStep_completion_pct (d : Snapshot) (s : SeriesRecord) :
    (classifyStep d s).completion_pct = d.completion_pct := by
  rw [classifyStep_eq]; split_ifs <;> rfl

lemma classifyStep_complete (d : Snapshot) (s : SeriesRecord) :
    (classifyStep d s).complete = d.complete + (if isComplete s then 1 else 0) := by
  rw [classifyStep_eq]
  by_cases hc : isComplete s = true
  · simp [hc]
  · simp only [Bool.not_eq_true] at hc
    simp [hc]
    split_ifs <;> rfl

lemma classifyStep_critical (d : Snapshot) (s : SeriesRecord) :
    (classifyStep d s).critical = d.critical + (if isCritical s then 1 else 0) := by
  rw [classifyStep_eq]
  by_cases hk : isCritical s = true
  · have hc := (buckets_exclusive s).1 hk
    simp [hc, hk]
  · simp only [Bool.not_eq_true] at hk
    simp [hk]
    split_ifs <;> rfl

lemma classifyStep_incomplete (d : Snapshot) (s : SeriesRecord) :
    (classifyStep d s).incomplete = d.incomplete + (if isIncomplete s then 1 else 0) := by
  rw [classifyStep_eq]
  by_cases hi : isIncomplete s = true
  · have hc := ((buckets_exclusive s).2 hi).1
    have hk := ((buckets_exclusive s).2 hi).2
    simp [hc, hk, hi]
  · simp only [Bool.not_eq_true] at hi
    simp [hi]
    split_ifs <;> rfl

/-- Exactly one bucket predicate fires on a classifiable record, none on a
non-classifiable one. -/
lemma bucket_split (s : SeriesRecord) :
    ((if isComplete s then 1 else 0) + (if isIncomplete s then 1 else 0)
      + (if isCritical s then 1 else 0) : ℕ)
      = if hasPositiveTotal s then 1 else 0 := by
  unfold isComplete isIncomplete isCritical
  cases hasPositiveTotal s <;>
    cases hq : decide ((100 : ℚ) ≤ recPct s) <;>
    cases hr : decide (recPct s < 50) <;> simp [hq, hr]

lemma foldl_classify_total (rs : List SeriesRecord) (d : Snapshot) :
    (rs.foldl classifyStep d).total = d.total := by
  induction rs generalizing d with
  | nil => rfl
  | cons a l ih => rw [List.foldl_cons, ih, classifyStep_total]

lemma foldl_classify_series (rs : List SeriesRecord) (d : Snapshot) :
    (rs.foldl classifyStep d).series = d.series := by
  induction rs generalizing d with
  | nil => rfl
  | cons a l ih => rw [List.foldl_cons, ih, classifyStep_series]

lemma foldl_classify_completion_pct (rs : List SeriesRecord) (d : Snapshot) :
    (rs.foldl classifyStep d).completion_pct = d.completion_pct := by
  induction rs generalizing d with
  | nil => rfl
  | cons a l ih => rw [List.foldl_cons, ih, classifyStep_completion_pct]

lemma foldl_classify_complete (rs : List SeriesRecord) (d : Snapshot) :
    (rs.foldl classifyStep d).complete = d.complete + rs.countP isComplete := by
  induction rs generalizing d with
  | nil => simp
  | cons a l ih =>
    rw [List.foldl_cons, ih, classifyStep_complete, List.countP_cons]
    by_cases h : isComplete a <;> simp [h] <;> omega

lemma foldl_classify_critical (rs : List SeriesRecord) (d : Snapshot) :
    (rs.foldl classifyStep d).critical = d.critical + rs.countP isCritical := by
  induction rs generalizing d with
  | nil => simp
  | cons a l ih =>
    rw [List.foldl_cons, ih, classifyStep_critical, List.countP_cons]
    by_cases h : isCritical a <;> simp [h] <;> omega

lemma foldl_classify_incomplete (rs : List SeriesRecord) (d : Snapshot) :
    (rs.foldl classifyStep d).incomplete = d.incomplete + rs.countP isIncomplete := by
  induction rs generalizing d with
  | nil => simp
  | cons a l ih =>
    rw [List.foldl_cons, ih, classifyStep_incomplete, List.countP_cons]
    by_cases h : isIncomplete a <;> simp [h] <;> omega

lemma countP_buckets (rs : List SeriesRecord) :
    rs.countP isComplete + rs.countP isIncomplete + rs.countP isCritical
      = rs.countP hasPositiveTotal := by
  induction rs with
  | nil => rfl
  | cons a l ih =>
    rw [List.countP_cons, List.countP_cons, List.countP_cons, List.countP_cons]
    have h := bucket_split a
    omega

/-! Field characterisations of `processSeries`. -/

lemma processSeries_total (rs : List SeriesRecord) :
    (processSeries rs).total = rs.length := by
  simp only [processSeries]
  split_ifs <;> simp [foldl_classify_total, emptyData]

lemma processSeries_series (rs : List SeriesRecord) :
    (processSeries rs).series = rs := by
  simp only [processSeries]
  split_ifs <;> simp [foldl_classify_series, emptyData]

lemma processSeries_complete (rs : List SeriesRecord) :
    (processSeries rs).complete = rs.countP isComplete := by
  simp only [processSeries]
  split_ifs <;> simp [foldl_classify_complete, emptyData]

lemma processSeries_critical (rs : List SeriesRecord) :
    (processSeries rs).critical = rs.countP isCritical := by
  simp only [processSeries]
  split_ifs <;> simp [foldl_classify_critical, emptyData]

lemma processSeries_incomplete (rs : List SeriesRecord) :
    (processSeries rs).incomplete = rs.countP isIncomplete := by
  simp only [processSeries]
  split_ifs <;> simp [foldl_classify_incomplete, emptyData]

lemma processSeries_completion_pct (rs : List SeriesRecord) :
    (processSeries rs).completion_pct =
      if 0 < rs.countP isComplete + rs.countP isIncomplete + rs.countP isCritical
      then pyRound1 ((rs.countP isComplete : ℚ) /
        ((rs.countP isComplete + rs.countP isIncomplete + rs.countP isCritical : ℕ) : ℚ) * 100)
      else 0 := by
  have hc := foldl_classify_complete rs { emptyData with series := rs, total := rs.length }
  have hi := foldl_classify_incomplete rs { emptyData with series := rs, total := rs.length }
  have hk := foldl_classify_critical rs { emptyData with series := rs, total := rs.length }
  have hp := foldl_classify_completion_pct rs { emptyData with series := rs, total := rs.length }
  simp only [emptyData] at hc hi hk hp
  simp only [processSeries, emptyData]
  simp only [hc, hi, hk, hp, Nat.zero_add]
  rw [apply_ite Snapshot.completion_pct]
  simp [hp]

/-! Agreement of the checked-division computation with the coordinator. -/

lemma classifyStepChecked_eq (d : Snapshot) (s : SeriesRecord) :
    classifyStepChecked d s = some (classifyStep d s) := by
  simp only [classifyStepChecked, classifyStep, divCheck]
  by_cases h : s.totalEpisodes.getD 0 ≠ 0 ∧ 0 < s.totalEpisodes.getD 0
  · have hz : ((s.totalEpisodes.getD 0 : Int) : ℚ) ≠ 0 := Int.cast_ne_zero.mpr h.1
    rw [if_pos h, if_pos h, if_neg hz]
    dsimp only
    split_ifs <;> rfl
  · rw [if_neg h, if_neg h]

lemma foldlM_classifyChecked (rs : List SeriesRecord) (d : Snapshot) :
    rs.foldlM classifyStepChecked d = some (rs.foldl classifyStep d) := by
  induction rs generalizing d with
  | nil => rfl
  | cons a l ih =>
    rw [List.foldlM_cons, classifyStepChecked_eq, List.foldl_cons]
    simpa using ih (classifyStep d a)

lemma processSeriesChecked_eq (rs : List SeriesRecord) :
    processSeriesChecked rs = some (processSeries rs) := by
  simp only [processSeriesChecked, processSeries, bind, Option.bind]
  rw [foldlM_classifyChecked]
  set d := rs.foldl classifyStep { emptyData with series := rs, total := rs.length } with hd
  by_cases h : 0 < d.complete + d.incomplete + d.critical
  · have hz : ((d.complete + d.incomplete + d.critical : ℕ) : ℚ) ≠ 0 :=
      Nat.cast_ne_zero.mpr h.ne'
    rw [if_pos h]
    dsimp only
    rw [if_pos h]
    simp only [divCheck]
    rw [if_neg hz]
    rfl
  · rw [if_neg h]
    dsimp only
    rw [if_neg h]
    rfl

/-! The claims. -/

/-- C1, counterexample: a non-200 response does not surface the update-failed
condition; the coordinator returns the all-zero snapshot, which replaces the
previously cached one. -/
theorem non_200_replaces_snapshot :
    async_update_data (.ok 500 .other) = .ok emptyData ∧
    coordinatorTick (some priorSnapshot) (.ok 500 .other) = some emptyData ∧
    some emptyData ≠ some priorSnapshot := by
  refine ⟨rfl, rfl, ?_⟩
  simp [emptyData, priorSnapshot]

/-- C1, amended: a transport error or timeout raises `UpdateFailed` and leaves
the cached snapshot untouched; a non-200 status does not raise — the
coordinator returns the all-zero snapshot, replacing the cache. -/
theorem update_failed_only_on_transport_error (st : Option Snapshot)
    (status : Nat) (body : JsonValue) (h : status ≠ 200) :
    async_update_data .clientError = .error .updateFailedClient ∧
    async_update_data .timeoutError = .error .updateFailedTimeout ∧
    coordinatorTick st .clientError = st ∧
    coordinatorTick st .timeoutError = st ∧
    async_update_data (.ok status body) = .ok emptyData ∧
    coordinatorTick st (.ok status body) = some emptyData := by
  refine ⟨rfl, rfl, rfl, rfl, ?_, ?_⟩ <;>
    simp [async_update_data, coordinatorTick, h]

/-- C1, witness for the amended statement at a concrete state and status. -/
theorem update_failed_only_on_transport_error_witness :
    coordinatorTick (some priorSnapshot) .clientError = some priorSnapshot ∧
    coordinatorTick (some priorSnapshot) (.ok 404 .other) = some emptyData := by
  have h := update_failed_only_on_transport_error (some priorSnapshot) 404
    JsonValue.other (by norm_num)
  exact ⟨h.2.2.1, h.2.2.2.2.2⟩

/-- C2: on a 200 response with a list body, the classified buckets sum to the
number of records whose `totalEpisodes` field is present and positive; records
with `totalEpisodes ≤ 0` or with the field absent enter no bucket. -/
theorem bucket_sum_eq_classifiable_count (rs : List SeriesRecord) :
    (processSeries rs).complete + (processSeries rs).incomplete
      + (processSeries rs).critical = rs.countP hasPositiveTotal := by
  rw [processSeries_complete, processSeries_incomplete, processSeries_critical,
    countP_buckets]

/-- C3: a record with positive `totalEpisodes` is classified by the ratio
`episode_count/totalEpisodes*100`: ratio ≥ 100 increments complete, ratio < 50
increments critical, any other ratio increments incomplete. -/
theorem classification_by_ratio (d : Snapshot) (s : SeriesRecord)
    (h : (0 : Int) < s.totalEpisodes.getD 0) :
    classifyStep d s =
      if 100 ≤ recPct s then { d with complete := d.complete + 1 }
      else if recPct s < 50 then { d with critical := d.critical + 1 }
      else { d with incomplete := d.incomplete + 1 } := by
  have hpt : hasPositiveTotal s = true := by
    rw [hasPositiveTotal_eq]; simpa using h
  rw [classifyStep_eq]
  by_cases hc : (100 : ℚ) ≤ recPct s
  · simp [isComplete, hpt, hc]
  · by_cases hk : recPct s < 50
    · simp [isComplete, isCritical, hpt, hc, hk]
    · simp [isComplete, isCritical, isIncomplete, hpt, hc, hk]

/-- C3, witness: `episode_count=10, totalEpisodes=10` is complete; `3,10` is
critical; `6,10` is incomplete. -/
theorem classification_by_ratio_witness :
    classifyStep emptyData { totalEpisodes := some 10, episode_count := some 10 }
      = { emptyData with complete := 1 } ∧
    classifyStep emptyData { totalEpisodes := some 10, episode_count := some 3 }
      = { emptyData with critical := 1 } ∧
    classifyStep emptyData { totalEpisodes := some 10, episode_count := some 6 }
      = { emptyData with incomplete := 1 } := by
  refine ⟨?_, ?_, ?_⟩ <;>
    rw [classification_by_ratio _ _ (by norm_num)] <;>
    norm_num [recPct, emptyData]

/-- C4: the published `completion_pct` equals
`round(complete/(complete+incomplete+critical)*100, 1)` when at least one
record was classified, and `0.0` otherwise (in particular on the empty
list). -/
theorem completion_pct_formula (rs : List SeriesRecord) :
    (processSeries rs).completion_pct =
      (if 0 < (processSeries rs).complete + (processSeries rs).incomplete
            + (processSeries rs).critical
       then pyRound1 (((processSeries rs).complete : ℚ) /
          (((processSeries rs).complete + (processSeries rs).incomplete
            + (processSeries rs).critical : ℕ) : ℚ) * 100)
       else 0) := by
  rw [processSeries_completion_pct, processSeries_complete,
    processSeries_incomplete, processSeries_critical]

/-- C5: every snapshot returned by the update satisfies
`complete + incomplete + critical ≤ total`. -/
theorem published_snapshot_invariant (resp : Response) (d : Snapshot)
    (h : async_update_data resp = .ok d) :
    d.complete + d.incomplete + d.critical ≤ d.total := by
  cases resp with
  | clientError => simp [async_update_data] at h
  | timeoutError => simp [async_update_data] at h
  | ok status body =>
    simp only [async_update_data] at h
    by_cases hs : status = 200
    · rw [if_pos hs] at h
      have hd : d = processSeries
          (match body with | .list records => records | .other => []) := by
        cases body <;> exact (Except.ok.injEq _ _).mp h.symm
      rw [hd, processSeries_complete, processSeries_incomplete,
        processSeries_critical, countP_buckets, processSeries_total]
      exact List.countP_le_length _
    · rw [if_neg hs] at h
      have hd : d = emptyData := (Except.ok.injEq _ _).mp h.symm
      rw [hd]
      simp [emptyData]

/-- C5, witness at a concrete 200 response carrying one unclassifiable
record. -/
theorem published_snapshot_invariant_witness :
    (processSeries [{ totalEpisodes := none, episode_count := none }]).complete
      + (processSeries [{ totalEpisodes := none, episode_count := none }]).incomplete
      + (processSeries [{ totalEpisodes := none, episode_count := none }]).critical
      ≤ (processSeries [{ totalEpisodes := none, episode_count := none }]).total :=
  published_snapshot_invariant
    (.ok 200 (.list [{ totalEpisodes := none, episode_count := none }]))
    (processSeries [{ totalEpisodes := none, episode_count := none }]) rfl

/-- C6: auto-detection returns the first hostname of the fixed priority list
whose probe answers status 200 (paired with the add-on port), skipping
hostnames that answer otherwise, error or time out, and `none` when no
hostname answers 200. -/
theorem detect_app_first_200 (probe : String → ProbeOutcome) :
    detect_app probe =
      (FALLBACK_HOSTNAMES.find? (fun h => decide (probe h = .status 200))).map
        (fun h => (h, ADDON_PORT)) := by
  show detectLoop probe FALLBACK_HOSTNAMES = _
  induction FALLBACK_HOSTNAMES with
  | nil => rfl
  | cons a l ih =>
    simp only [detectLoop, List.find?]
    cases hpa : probe a with
    | status code =>
      by_cases hc : code = 200
      · subst hc; simp
      · simp [hc, ih]
    | connError => simp [ih]
    | timeout => simp [ih]

/-- C7: each of the five sensors returns `None` while the coordinator holds no
snapshot, and afterwards returns exactly the corresponding snapshot field. -/
theorem sensors_project_snapshot :
    SENSORS = [("total", totalValueFn), ("complete", completeValueFn),
      ("incomplete", incompleteValueFn), ("critical", criticalValueFn),
      ("completion", completionValueFn)] ∧
    (∀ f : Snapshot → SensorValue, native_value f none = none) ∧
    ∀ st : Snapshot,
      native_value totalValueFn (some st) = some (.count st.total) ∧
      native_value completeValueFn (some st) = some (.count st.complete) ∧
      native_value incompleteValueFn (some st) = some (.count st.incomplete) ∧
      native_value criticalValueFn (some st) = some (.count st.critical) ∧
      native_value completionValueFn (some st) = some (.percent st.completion_pct) :=
  ⟨rfl, fun _ => rfl, fun _ => ⟨rfl, rfl, rfl, rfl, rfl⟩⟩

/-- C8: an absent `totalEpisodes` leaves a record outside every bucket while
it still counts in `total`, and a record with positive `totalEpisodes` but no
`episode_count` is classified critical (ratio 0). -/
theorem missing_fields_default_zero :
    (∀ rs : List SeriesRecord, (processSeries rs).total = rs.length) ∧
    (∀ (d : Snapshot) (s : SeriesRecord), s.totalEpisodes = none →
      classifyStep d s = d) ∧
    (∀ (d : Snapshot) (s : SeriesRecord) (t : Int), s.totalEpisodes = some t →
      0 < t → s.episode_count = none →
      classifyStep d s = { d with critical := d.critical + 1 }) := by
  refine ⟨processSeries_total, ?_, ?_⟩
  · intro d s h
    simp [classifyStep, h]
  · intro d s t h ht h2
    have hr : recPct s = 0 := by simp [recPct, h, h2]
    have hpt : hasPositiveTotal s = true := by simp [hasPositiveTotal, h, ht]
    have h1 : isComplete s = false := by norm_num [isComplete, hr]
    have hk : isCritical s = true := by norm_num [isCritical, hpt, hr]
    rw [classifyStep_eq]
    simp [h1, hk]

/-- C8, witness at records with each field absent. -/
theorem missing_fields_default_zero_witness :
    (processSeries [{ totalEpisodes := none, episode_count := some 5 }]).total = 1 ∧
    classifyStep emptyData { totalEpisodes := none, episode_count := some 5 }
      = emptyData ∧
    classifyStep emptyData { totalEpisodes := some 10, episode_count := none }
      = { emptyData with critical := 1 } := by
  refine ⟨?_, missing_fields_default_zero.2.1 emptyData _ rfl, ?_⟩
  · simpa using missing_fields_default_zero.1
      [{ totalEpisodes := none, episode_count := some 5 }]
  · simpa using missing_fields_default_zero.2.2 emptyData
      { totalEpisodes := some 10, episode_count := none } 10 rfl (by norm_num) rfl

/-- C9: a 200 response whose JSON body is not a list raises nothing and
publishes the all-zero snapshot, replacing any prior one. -/
theorem non_list_body_publishes_zero (st : Option Snapshot) :
    async_update_data (.ok 200 .other) =
      .ok { total := 0, complete := 0, incomplete := 0, critical := 0,
            completion_pct := 0, series := [] } ∧
    coordinatorTick st (.ok 200 .other) = some emptyData :=
  ⟨rfl, rfl⟩

/-- C10: the update never divides by zero: the checked-division variant of the
whole update, which fails on any zero denominator, always succeeds and agrees
with the coordinator. -/
theorem no_division_by_zero (resp : Response) :
    async_update_data_checked resp = some (async_update_data resp) := by
  cases resp with
  | clientError => rfl
  | timeoutError => rfl
  | ok status body =>
    simp only [async_update_data_checked, async_update_data]
    by_cases hs : status = 200
    · rw [if_pos hs, if_pos hs]
      cases body <;> simp [processSeriesChecked_eq]
    · rw [if_neg hs, if_neg hs]

end SeriesComplete
